import Mathlib

/-!
Shallow embedding of the cloudapp backend (src/backend/database.js,
src/backend/cloudinary.js usage sites, and the Express route handlers of
src/backend/index.js).  The repository contains two concatenated variants of
index.js; where they differ (the upload catch block, the presence of the
persisted status field) both are embedded and named variant 1 / variant 2.

Modelling conventions:
- The metadata file images.json (the Record Store) is a `List ImageRecord`.
- The uploads directory (the Local Blob Store) is the list of filenames it
  contains; `fs.existsSync`/`fs.unlinkSync` on a path are resolved against
  the paths `uploads/<name>` of those entries, matching how every path the
  backend ever touches is produced (`multer.diskStorage` writes into
  UPLOAD_DIR and `localPath` is recorded as that written path).
- Cloudinary is an oracle: `fetchResource` is a function from public id to
  an outcome (success / not-found error / transport error; in the JS code
  the two error cases are both surfaced as a rejected promise, which the
  listing handler catches), and `uploadImage` outcomes are passed in as a
  parameter of the handler embeddings.
- `Date.now()` values are passed in as explicit timestamp parameters.
- JSON id values may be numbers or strings; `String(x)` coercion on them is
  `idToString`.
-/

namespace CloudApp

/-- A JSON id value: the code compares ids with `String(img.id) === String(id)`,
tolerating numeric or string ids. -/
inductive JsonId where
  | num (n : Int)
  | str (s : String)
deriving DecidableEq, Repr

/-- JavaScript `String()` coercion on an id value (decimal for numbers). -/
def idToString : JsonId → String
  | .num n => toString n
  | .str s => s

/-- One entry of images.json.  Variant 1 of the upload handler also stores
`backupKey`, `backupData` and `status`; variant 2 leaves them absent (`none`).
`restoredAt` is absent until a successful restore. -/
structure ImageRecord where
  id : JsonId
  filename : Option String
  originalName : String
  localPath : String
  cloudinaryUrl : String
  cloudinaryPublicId : String
  uploadedAt : String
  backupKey : Option String := none
  backupData : Option String := none
  status : Option String := none
  restoredAt : Option String := none
deriving DecidableEq, Repr

/-- Server state: the Record Store (images.json contents, in order) and the
Local Blob Store (filenames present in the uploads directory). -/
structure BackendState where
  db : List ImageRecord
  uploads : List String
deriving DecidableEq, Repr

/-- The uploads directory name, used to form the paths multer writes to. -/
def uploadDirName : String := "uploads"

/-- The full path of a blob stored under `name` in the uploads directory. -/
def localPathOf (name : String) : String := uploadDirName ++ "/" ++ name

/-- fs.existsSync on a path, resolved against the uploads directory. -/
def existsSyncPath (uploads : List String) (p : String) : Bool :=
  uploads.any (fun n => localPathOf n == p)

/-- fs.unlinkSync on a path: removes the entries of the uploads directory
whose full path equals `p`. -/
def unlinkPath (uploads : List String) (p : String) : List String :=
  uploads.filter (fun n => !(localPathOf n == p))

/-- database.js findImageById: first record whose `String(img.id)` equals
`String(id)`. -/
def findImageById (db : List ImageRecord) (id : JsonId) : Option ImageRecord :=
  db.find? (fun img => idToString img.id == idToString id)

/-- database.js updateImageRecord: findIndex by String-coerced id; when found,
overwrite that slot and write the collection back; when absent, do nothing. -/
def updateImageRecord (st : BackendState) (imageRecord : ImageRecord) : BackendState :=
  match st.db.findIdx? (fun img => idToString img.id == idToString imageRecord.id) with
  | some index => { st with db := st.db.set index imageRecord }
  | none => st

/-- database.js deleteImageById (pure part): remove ALL records whose
String-coerced id matches. -/
def deleteImageByIdDB (db : List ImageRecord) (id : JsonId) : List ImageRecord :=
  db.filter (fun img => !(idToString img.id == idToString id))

/-- The keep-condition of database.js syncDBWithFiles:
`img.filename && filesSet.has(img.filename)` (a missing or empty filename is
falsy in JavaScript). -/
def fileInUploads (uploads : List String) (img : ImageRecord) : Bool :=
  match img.filename with
  | some n => (!(n == "")) && uploads.contains n
  | none => false

/-- database.js syncDBWithFiles: keep only records whose file exists in the
uploads directory; write the filtered collection back only when its length
differs from the original.  The Bool reports whether setDB was called. -/
def syncDBWithFiles (st : BackendState) : BackendState × Bool :=
  let filtered := st.db.filter (fileInUploads st.uploads)
  if filtered.length != st.db.length then ({ st with db := filtered }, true)
  else (st, false)

/-- Outcome of cloudinary.js fetchResource for a given public id: success, or
a rejected promise.  The rejection distinguishes (at the oracle level) a
positive not-found answer from a transport failure; the JS caller receives
both as a thrown error. -/
inductive FetchOutcome where
  | ok
  | notFound
  | transportError
deriving DecidableEq, Repr

/-- A record as returned by GET /images in variant 1: the spread
`{ ...img, status, hasLocalFile }`. -/
structure ListedImage where
  image : ImageRecord
  hasLocalFile : Bool
deriving DecidableEq, Repr

/-- One iteration of the GET /images classification map (variant 1): try
fetchResource; on success decorate with status available, on ANY caught error
(not-found or transport) decorate with status missing.  `hasLocalFile` is
fs.existsSync(img.localPath). -/
def classifyRecord (fetch : String → FetchOutcome) (uploads : List String)
    (img : ImageRecord) : ListedImage :=
  match fetch img.cloudinaryPublicId with
  | .ok =>
      { image := { img with status := some "available" },
        hasLocalFile := existsSyncPath uploads img.localPath }
  | .notFound =>
      { image := { img with status := some "missing" },
        hasLocalFile := existsSyncPath uploads img.localPath }
  | .transportError =>
      { image := { img with status := some "missing" },
        hasLocalFile := existsSyncPath uploads img.localPath }

/-- GET /images: run syncDBWithFiles, re-read the store, classify every
surviving record against the fetch oracle, and return the decorated list.
The classification pass performs no store write. -/
def getImages (st : BackendState) (fetch : String → FetchOutcome) :
    List ListedImage × BackendState :=
  let st1 := (syncDBWithFiles st).1
  (st1.db.map (classifyRecord fetch st1.uploads), st1)

/-- The multipart file object multer hands to the route (before storage). -/
structure UploadedFile where
  originalname : String
  mimetype : String
  size : Nat
deriving DecidableEq, Repr

/-- The object returned by a successful cloudinary.uploader.upload. -/
structure CloudUploadResult where
  secure_url : String
  public_id : String
deriving DecidableEq, Repr

/-- Outcome of cloudinary.js uploadImage: resolved result or rejection. -/
inductive UploadOutcome where
  | ok (result : CloudUploadResult)
  | err (msg : String)
deriving DecidableEq, Repr

/-- Response of the POST /upload pipeline.  `handlerError` is the handler's
own catch block (500); `middlewareError` is a multer error (fileFilter
rejection or LIMIT_FILE_SIZE) that reaches the Express default error handler,
which answers 500 for errors carrying no status. -/
inductive UploadResp where
  | created (data : ImageRecord)
  | noFile
  | handlerError (msg : String)
  | middlewareError (msg : String)
deriving DecidableEq, Repr

/-- HTTP status of an upload response. -/
def uploadStatusCode : UploadResp → Nat
  | .created _ => 201
  | .noFile => 400
  | .handlerError _ => 500
  | .middlewareError _ => 500

/-- multer.diskStorage filename callback: `Date.now() + '-' + file.originalname`. -/
def multerFilename (tFile : Nat) (f : UploadedFile) : String :=
  toString tFile ++ "-" ++ f.originalname

/-- JavaScript `s.startsWith(p)`, computed on the character lists (the
built-in String.startsWith is byte-level and not kernel-reducible). -/
def strStartsWith (s p : String) : Bool :=
  s.data.take p.data.length == p.data

/-- The 5 MB fileSize limit of the multer configuration. -/
def maxFileSize : Nat := 5 * 1024 * 1024

/-- Variant 1 upload handler body (index.js first copy), entered after multer
has written the blob: on cloudinary success push a new record (with backup
fields and persisted status available) and answer 201; on failure unlink the
just-written file if it exists and answer 500. -/
def uploadHandler1 (st : BackendState) (filename localPath origName : String)
    (up : UploadOutcome) (tId : Nat) (nowIso : String)
    (backupKey backupData : Option String) : UploadResp × BackendState :=
  match up with
  | .ok result =>
      let imageData : ImageRecord :=
        { id := .str (toString tId)
          filename := some filename
          originalName := origName
          localPath := localPath
          cloudinaryUrl := result.secure_url
          cloudinaryPublicId := result.public_id
          uploadedAt := nowIso
          backupKey := backupKey
          backupData := backupData
          status := some "available" }
      (.created imageData, { st with db := st.db ++ [imageData] })
  | .err m =>
      let uploads1 :=
        if existsSyncPath st.uploads localPath then unlinkPath st.uploads localPath
        else st.uploads
      (.handlerError m, { st with uploads := uploads1 })

/-- Variant 2 upload handler body (index.js second copy): identical success
path except the record has no backupKey/backupData/status fields, and the
catch block performs NO local cleanup. -/
def uploadHandler2 (st : BackendState) (filename localPath origName : String)
    (up : UploadOutcome) (tId : Nat) (nowIso : String) : UploadResp × BackendState :=
  match up with
  | .ok result =>
      let imageData : ImageRecord :=
        { id := .str (toString tId)
          filename := some filename
          originalName := origName
          localPath := localPath
          cloudinaryUrl := result.secure_url
          cloudinaryPublicId := result.public_id
          uploadedAt := nowIso }
      (.created imageData, { st with db := st.db ++ [imageData] })
  | .err m => (.handlerError m, st)

/-- The multer gate in front of both upload handlers, per multer's documented
contract: with no file field the handler runs with req.file undefined (the
route answers 400); a fileFilter rejection (`cb(new Error(...))` for a
non-image mimetype) aborts before the blob is written; exceeding
limits.fileSize aborts the write and multer removes the partial file; in both
abort cases the error reaches the Express default error handler (500) and the
route body never runs. -/
def multerGate (st : BackendState) (file? : Option UploadedFile) (tFile : Nat) :
    Option (UploadResp × BackendState) ⊕ (String × String × BackendState) :=
  match file? with
  | none => .inl none
  | some f =>
      if !(strStartsWith f.mimetype "image/") then
        .inl (some (.middlewareError "Only image files are allowed", st))
      else if maxFileSize < f.size then
        .inl (some (.middlewareError "File too large", st))
      else
        let filename := multerFilename tFile f
        .inr (filename, localPathOf filename,
              { st with uploads := filename :: st.uploads })

/-- Full POST /upload pipeline, variant 1: multer gate, then handler. -/
def postUpload1 (st : BackendState) (file? : Option UploadedFile)
    (up : UploadOutcome) (tFile tId : Nat) (nowIso : String)
    (backupKey backupData : Option String) : UploadResp × BackendState :=
  match multerGate st file? tFile with
  | .inl none => (.noFile, st)
  | .inl (some r) => r
  | .inr (filename, localPath, st1) =>
      match file? with
      | some f => uploadHandler1 st1 filename localPath f.originalname up tId nowIso
          backupKey backupData
      | none => (.noFile, st)

/-- Full POST /upload pipeline, variant 2. -/
def postUpload2 (st : BackendState) (file? : Option UploadedFile)
    (up : UploadOutcome) (tFile tId : Nat) (nowIso : String) :
    UploadResp × BackendState :=
  match multerGate st file? tFile with
  | .inl none => (.noFile, st)
  | .inl (some r) => r
  | .inr (filename, localPath, st1) =>
      match file? with
      | some f => uploadHandler2 st1 filename localPath f.originalname up tId nowIso
      | none => (.noFile, st)

/-- Response of POST /restore/:id. -/
inductive RestoreResp where
  | ok (data : ImageRecord)
  | notFound
  | localNotFound
  | serverError (msg : String)
deriving DecidableEq, Repr

/-- POST /restore/:id (variant 1): find the record; 404 when absent; 404 when
the local blob is gone; re-upload and on success overwrite cloudinaryUrl,
cloudinaryPublicId, restoredAt and status on the found record and persist it
via updateImageRecord; on upload failure answer 500. -/
def postRestore (st : BackendState) (id : JsonId) (up : UploadOutcome)
    (nowIso : String) : RestoreResp × BackendState :=
  match findImageById st.db id with
  | none => (.notFound, st)
  | some img =>
      if !(existsSyncPath st.uploads img.localPath) then (.localNotFound, st)
      else
        match up with
        | .err m => (.serverError m, st)
        | .ok result =>
            let img' :=
              { img with cloudinaryUrl := result.secure_url
                         cloudinaryPublicId := result.public_id
                         restoredAt := some nowIso
                         status := some "available" }
            (.ok img', updateImageRecord st img')

/-- Response of DELETE /images/:id. -/
inductive DeleteResp where
  | ok
  | notFound
deriving DecidableEq, Repr

/-- The observable side-effect sequence of the delete route, in program
order. -/
inductive DeleteAction where
  | remoteDeleteAttempt (publicId : String)
  | localUnlinkAttempt (path : String)
  | dbRemove (id : JsonId)
deriving DecidableEq, Repr

/-- DELETE /images/:id: find the record (404 when absent); attempt the
cloudinary deletion (its failure is caught and only logged); attempt the
local unlink (existsSync guard; failure caught and only logged); then remove
the record from the store and answer 200.  The Bool flags say whether each
sub-deletion failed; the action list records the order the route performs
them in. -/
def deleteImages (st : BackendState) (id : JsonId)
    (remoteDeleteFails localUnlinkFails : Bool) :
    DeleteResp × BackendState × List DeleteAction :=
  match findImageById st.db id with
  | none => (.notFound, st, [])
  | some img =>
      let uploads1 :=
        if existsSyncPath st.uploads img.localPath && !localUnlinkFails then
          unlinkPath st.uploads img.localPath
        else st.uploads
      let db1 := deleteImageByIdDB st.db id
      (.ok, { db := db1, uploads := uploads1 },
       [.remoteDeleteAttempt img.cloudinaryPublicId,
        .localUnlinkAttempt img.localPath,
        .dbRemove id])

/-- A sample stored record used to instantiate theorems on concrete inputs.
Its localPath is the path multer would have written for its filename. -/
def exRecord : ImageRecord :=
  { id := .str "100"
    filename := some "100-cat.png"
    originalName := "cat.png"
    localPath := "uploads/100-cat.png"
    cloudinaryUrl := "https://res.example/x.png"
    cloudinaryPublicId := "cloudapp/x"
    uploadedAt := "2024-05-01T00:00:00Z" }

/-- A sample server state holding `exRecord` and its blob. -/
def exState : BackendState := { db := [exRecord], uploads := ["100-cat.png"] }

/-- The record a successful variant-1 upload of a.png creates when both
Date.now() readings are 7. -/
def exUploadedA : ImageRecord :=
  { id := .str "7"
    filename := some "7-a.png"
    originalName := "a.png"
    localPath := "uploads/7-a.png"
    cloudinaryUrl := "u1"
    cloudinaryPublicId := "p1"
    uploadedAt := "T"
    status := some "available" }

/-- The record a successful variant-1 upload of b.png creates when both
Date.now() readings are again 7 (same millisecond as `exUploadedA`). -/
def exUploadedB : ImageRecord :=
  { id := .str "7"
    filename := some "7-b.png"
    originalName := "b.png"
    localPath := "uploads/7-b.png"
    cloudinaryUrl := "u2"
    cloudinaryPublicId := "p2"
    uploadedAt := "T"
    status := some "available" }

/-! ## Helper lemmas -/

theorem localPathOf_inj {a b : String} (h : localPathOf a = localPathOf b) : a = b := by
  have h2 := congrArg String.data h
  simp only [localPathOf, String.data_append] at h2
  exact String.ext (List.append_cancel_left h2)

theorem find?_imp_findIdx? {α : Type} (p : α → Bool) (l : List α) (x : α)
    (h : l.find? p = some x) : ∀ n : Nat,
    ∃ i, List.findIdx? p l n = some (n + i) ∧ ∃ hi : i < l.length, l.get ⟨i, hi⟩ = x := by
  induction l with
  | nil => simp [List.find?] at h
  | cons a l ih =>
    intro n
    by_cases hp : p a = true
    · have hx : a = x := by
        simp only [List.find?, hp] at h
        exact Option.some.inj h
      refine ⟨0, ?_, Nat.succ_pos _, hx⟩
      rw [List.findIdx?_cons, if_pos hp, Nat.add_zero]
    · have h' : l.find? p = some x := by
        simp only [List.find?] at h
        rw [Bool.not_eq_true] at hp
        rw [hp] at h
        exact h
      obtain ⟨i, hidx, hi, hget⟩ := ih h' (n + 1)
      refine ⟨i + 1, ?_, Nat.succ_lt_succ hi, hget⟩
      rw [List.findIdx?_cons, if_neg hp, hidx]
      congr 1
      omega

theorem findIdx?_eq_none_of_forall {α : Type} (p : α → Bool) (l : List α)
    (h : ∀ a ∈ l, p a = false) : ∀ n : Nat, List.findIdx? p l n = none := by
  induction l with
  | nil => intro n; rfl
  | cons a l ih =>
    intro n
    rw [List.findIdx?_cons, if_neg (by simp [h a (List.mem_cons_self a l)])]
    exact ih (fun a ha => h a (List.mem_cons_of_mem _ ha)) (n + 1)

theorem find?_filter_not {α : Type} (p : α → Bool) (l : List α) :
    (l.filter (fun a => !(p a))).find? p = none := by
  rw [List.find?_eq_none]
  intro x hx
  have hnp := (List.mem_filter.1 hx).2
  simp only [Bool.not_eq_true'] at hnp
  simp [hnp]

theorem syncDBWithFiles_eq (st : BackendState) :
    syncDBWithFiles st =
      if (st.db.filter (fileInUploads st.uploads)).length ≠ st.db.length
      then ({ st with db := st.db.filter (fileInUploads st.uploads) }, true)
      else (st, false) := by
  unfold syncDBWithFiles
  by_cases h : (st.db.filter (fileInUploads st.uploads)).length = st.db.length <;> simp [h]

theorem syncDBWithFiles_db_eq_filter (st : BackendState) :
    ((syncDBWithFiles st).1).db = st.db.filter (fileInUploads st.uploads) := by
  rw [syncDBWithFiles_eq]
  by_cases h : (st.db.filter (fileInUploads st.uploads)).length = st.db.length
  · rw [if_neg (not_not_intro h)]
    exact ((List.filter_sublist st.db).eq_of_length h).symm
  · rw [if_pos h]

theorem syncDBWithFiles_uploads (st : BackendState) :
    ((syncDBWithFiles st).1).uploads = st.uploads := by
  rw [syncDBWithFiles_eq]
  split <;> rfl

theorem classifyRecord_image_eq (fetch : String → FetchOutcome) (u : List String)
    (img : ImageRecord) :
    (classifyRecord fetch u img).image =
      { img with status := (classifyRecord fetch u img).image.status } := by
  unfold classifyRecord
  cases fetch img.cloudinaryPublicId <;> rfl

/-! ## Claim theorems -/

/-- C9: record lookup compares ids after String coercion.  `findImageById` is
exactly the first-match search under `idToString`-equality, a numeric id and
its decimal-string form address the same record, deletion filters under the
same coercion, and a found record really bears a matching coerced id. -/
theorem findImageById_string_coercion (db : List ImageRecord) (n : Int)
    (id : JsonId) (r : ImageRecord) :
    findImageById db (.num n) = findImageById db (.str (toString n)) ∧
    deleteImageByIdDB db (.num n) = deleteImageByIdDB db (.str (toString n)) ∧
    (findImageById db id = some r → r ∈ db ∧ idToString r.id = idToString id) ∧
    (findImageById db id = none ↔ ∀ r' ∈ db, idToString r'.id ≠ idToString id) := by
  refine ⟨rfl, rfl, ?_, ?_⟩
  · intro h
    have h' : db.find? (fun img => idToString img.id == idToString id) = some r := h
    have hb :=
      @List.find?_some _ (fun img => idToString img.id == idToString id) r db h'
    exact ⟨List.mem_of_find?_eq_some h', eq_of_beq hb⟩
  · rw [findImageById, List.find?_eq_none]
    constructor
    · intro h r' hr'
      have := h r' hr'
      simpa using this
    · intro h r' hr'
      simpa using h r' hr'

/-- Witness for C9 at a concrete store: the record found for the numeric id
100 is the stored record, which bears a matching coerced id. -/
theorem findImageById_string_coercion_witness :
    exRecord ∈ [exRecord] ∧ idToString exRecord.id = idToString (.num 100) :=
  (findImageById_string_coercion [exRecord] 100 (.num 100) exRecord).2.2.1 (by decide)

/-- C10: updateImageRecord is a no-op when no stored record's String-coerced
id matches the incoming record's: the store is left completely unchanged. -/
theorem updateImageRecord_noop_of_absent (st : BackendState) (record : ImageRecord)
    (h : ∀ r ∈ st.db, idToString r.id ≠ idToString record.id) :
    updateImageRecord st record = st := by
  unfold updateImageRecord
  rw [findIdx?_eq_none_of_forall _ _ (fun r hr => by simp [h r hr]) 0]

/-- Witness for C10: updating a record with an unmatched id leaves the
concrete store untouched. -/
theorem updateImageRecord_noop_of_absent_witness :
    updateImageRecord exState { exRecord with id := .str "999" } = exState :=
  updateImageRecord_noop_of_absent exState { exRecord with id := .str "999" }
    (by intro r hr; simp only [exState, List.mem_singleton] at hr; subst hr; decide)

theorem fileInUploads_classify (fetch : String → FetchOutcome) (u u2 : List String)
    (r : ImageRecord) :
    fileInUploads u (classifyRecord fetch u2 r).image = fileInUploads u r := by
  unfold classifyRecord
  cases fetch r.cloudinaryPublicId <;> rfl

/-- C7: the classification pass of GET /images is read-only on the Record
Store: the state the listing leaves behind is exactly the post-sync state,
the returned list is the post-sync record set decorated by the classifier,
and every decorated image differs from the stored record it was computed
from at most in the derived status field — which is returned to the caller
but never written back. -/
theorem listing_classification_read_only (st : BackendState)
    (fetch : String → FetchOutcome) :
    (getImages st fetch).2 = (syncDBWithFiles st).1 ∧
    (getImages st fetch).1 =
      ((syncDBWithFiles st).1).db.map (classifyRecord fetch st.uploads) ∧
    ∀ r ∈ ((syncDBWithFiles st).1).db,
      (classifyRecord fetch st.uploads r).image =
        { r with status := (classifyRecord fetch st.uploads r).image.status } := by
  refine ⟨rfl, ?_, ?_⟩
  · simp only [getImages]
    rw [syncDBWithFiles_uploads]
  · intro r _
    exact classifyRecord_image_eq fetch st.uploads r

/-- Witness for C7 at the concrete store: the decorated image of the stored
record agrees with it on every field except the derived status. -/
theorem listing_classification_read_only_witness :
    (classifyRecord (fun _ => .ok) exState.uploads exRecord).image =
      { exRecord with
          status := (classifyRecord (fun _ => .ok) exState.uploads exRecord).image.status } :=
  (listing_classification_read_only exState (fun _ => .ok)).2.2 exRecord (by decide)

/-- C2 (amended): during listing classification, any failure of the remote
existence check — a positive not-found and a transport error alike — is
collapsed into the missing classification; available is assigned exactly
when the fetch succeeds.  Transport errors are not surfaced distinctly to
the caller. -/
theorem listing_collapses_fetch_errors (st : BackendState)
    (fetch : String → FetchOutcome) (li : ListedImage)
    (h : li ∈ (getImages st fetch).1) :
    li.image.status =
      if fetch li.image.cloudinaryPublicId = .ok then some "available"
      else some "missing" := by
  simp only [getImages] at h
  obtain ⟨r, -, rfl⟩ := List.mem_map.1 h
  unfold classifyRecord
  cases hf : fetch r.cloudinaryPublicId <;> simp [hf]

/-- Witness for C2's amended theorem at a concrete listing whose oracle
reports a transport error. -/
theorem listing_collapses_fetch_errors_witness :
    ({ image := { exRecord with status := some "missing" },
       hasLocalFile := true } : ListedImage).image.status =
      if (fun _ => FetchOutcome.transportError)
          ({ image := { exRecord with status := some "missing" },
             hasLocalFile := true } : ListedImage).image.cloudinaryPublicId = .ok
      then some "available" else some "missing" :=
  listing_collapses_fetch_errors exState (fun _ => .transportError) _ (by decide)

/-- C2 counterexample: with an oracle that only ever fails with a transport
error (never a positive not-found), the listing still classifies the stored
record as missing, and the whole response is indistinguishable from the one
produced under a positive not-found oracle — the transport failure is
collapsed into absence rather than surfaced distinctly. -/
theorem listing_transport_error_cex :
    ((getImages exState (fun _ => .transportError)).1.map
        (fun li => li.image.status) = [some "missing"]) ∧
    getImages exState (fun _ => .transportError) =
      getImages exState (fun _ => .notFound) :=
  ⟨rfl, rfl⟩

/-- C1: sync purge.  A record whose filename does not resolve to a blob of
the Local Blob Store is removed by the sync pass — so it is absent both from
the store state in which classification then runs and from the state the
listing leaves behind; every image any listing ever returns has its blob
present (hence a purged record cannot reappear in any subsequent listing
while its blob is still absent); and the filtered collection is written back
exactly when it differs from the original. -/
theorem sync_purge_listing (st st2 : BackendState)
    (fetch fetch2 : String → FetchOutcome) (r : ImageRecord)
    (hmiss : fileInUploads st.uploads r = false) :
    r ∉ ((syncDBWithFiles st).1).db ∧
    r ∉ ((getImages st fetch).2).db ∧
    (∀ li ∈ (getImages st2 fetch2).1, fileInUploads st2.uploads li.image = true) ∧
    ((syncDBWithFiles st).2 = true ↔ ((syncDBWithFiles st).1).db ≠ st.db) := by
  have habs : r ∉ ((syncDBWithFiles st).1).db := by
    rw [syncDBWithFiles_db_eq_filter]
    intro hmem
    have := (List.mem_filter.1 hmem).2
    rw [hmiss] at this
    cases this
  refine ⟨habs, habs, ?_, ?_⟩
  · intro li hli
    simp only [getImages] at hli
    obtain ⟨r', hr', rfl⟩ := List.mem_map.1 hli
    rw [syncDBWithFiles_db_eq_filter] at hr'
    rw [fileInUploads_classify]
    exact (List.mem_filter.1 hr').2
  · have hsync := syncDBWithFiles_eq st
    by_cases h : (st.db.filter (fileInUploads st.uploads)).length = st.db.length
    · rw [if_neg (not_not_intro h)] at hsync
      rw [hsync]
      simp
    · rw [if_pos h] at hsync
      rw [hsync]
      constructor
      · intro _ hdb
        exact h (congrArg List.length hdb)
      · intro _
        rfl

/-- Witness for C1: a record whose blob is absent from the concrete store's
uploads directory is purged by the sync pass. -/
theorem sync_purge_listing_witness :
    { exRecord with filename := some "gone.png" } ∉
      ((syncDBWithFiles
          { db := [exRecord, { exRecord with filename := some "gone.png" }],
            uploads := ["100-cat.png"] }).1).db :=
  (sync_purge_listing
    { db := [exRecord, { exRecord with filename := some "gone.png" }],
      uploads := ["100-cat.png"] }
    exState (fun _ => .ok) (fun _ => .ok)
    { exRecord with filename := some "gone.png" } (by decide)).1

/-- C5: delete completeness-of-record.  For an id present in the store the
route answers 200 and afterwards findImageById answers not-found, whatever
the outcome of the remote and local sub-deletions; the observable action
sequence attempts the remote deletion, then the local unlink, and removes
the record from the store last. -/
theorem delete_completeness (st : BackendState) (id : JsonId)
    (remoteDeleteFails localUnlinkFails : Bool) (img : ImageRecord)
    (h : findImageById st.db id = some img) :
    (deleteImages st id remoteDeleteFails localUnlinkFails).1 = .ok ∧
    findImageById
      ((deleteImages st id remoteDeleteFails localUnlinkFails).2.1).db id = none ∧
    (deleteImages st id remoteDeleteFails localUnlinkFails).2.2 =
      [.remoteDeleteAttempt img.cloudinaryPublicId,
       .localUnlinkAttempt img.localPath,
       .dbRemove id] := by
  unfold deleteImages
  rw [h]
  exact ⟨rfl, find?_filter_not _ st.db, rfl⟩

/-- Witness for C5 at the concrete store, with BOTH sub-deletions failing:
the route still answers 200, the record is gone from the store, and the
store removal is the last action. -/
theorem delete_completeness_witness :
    (deleteImages exState (.str "100") true true).1 = .ok ∧
    findImageById ((deleteImages exState (.str "100") true true).2.1).db
      (.str "100") = none ∧
    (deleteImages exState (.str "100") true true).2.2 =
      [.remoteDeleteAttempt exRecord.cloudinaryPublicId,
       .localUnlinkAttempt exRecord.localPath,
       .dbRemove (.str "100")] :=
  delete_completeness exState (.str "100") true true exRecord (by decide)

theorem multerGate_nonimage (st : BackendState) (f : UploadedFile) (tF : Nat)
    (h : strStartsWith f.mimetype "image/" = false) :
    multerGate st (some f) tF =
      .inl (some (.middlewareError "Only image files are allowed", st)) := by
  unfold multerGate
  simp [h]

theorem multerGate_oversize (st : BackendState) (f : UploadedFile) (tF : Nat)
    (h1 : strStartsWith f.mimetype "image/" = true) (h2 : maxFileSize < f.size) :
    multerGate st (some f) tF = .inl (some (.middlewareError "File too large", st)) := by
  unfold multerGate
  simp [h1, h2]

theorem multerGate_pass (st : BackendState) (f : UploadedFile) (tF : Nat)
    (h1 : strStartsWith f.mimetype "image/" = true) (h2 : f.size ≤ maxFileSize) :
    multerGate st (some f) tF =
      .inr (multerFilename tF f, localPathOf (multerFilename tF f),
            { st with uploads := multerFilename tF f :: st.uploads }) := by
  unfold multerGate
  simp [h1, Nat.not_lt.2 h2]

/-- C3 (amended): when the remote upload fails after the local blob write,
neither upload variant creates a record and both answer 500; the
first-variant handler also unlinks the just-written blob, restoring the
Local Blob Store to its pre-request state, while the second-variant handler
performs no cleanup and leaves the orphaned blob behind. -/
theorem upload_failure_cleanup (st : BackendState) (f : UploadedFile) (m : String)
    (tFile tId : Nat) (nowIso : String) (bk bd : Option String)
    (himg : strStartsWith f.mimetype "image/" = true)
    (hsize : f.size ≤ maxFileSize)
    (hfresh : multerFilename tFile f ∉ st.uploads) :
    postUpload1 st (some f) (.err m) tFile tId nowIso bk bd = (.handlerError m, st) ∧
    postUpload2 st (some f) (.err m) tFile tId nowIso =
      (.handlerError m, { st with uploads := multerFilename tFile f :: st.uploads }) := by
  have hgate := multerGate_pass st f tFile himg hsize
  have hex : existsSyncPath (multerFilename tFile f :: st.uploads)
      (localPathOf (multerFilename tFile f)) = true := by
    simp [existsSyncPath]
  have hunlink : unlinkPath (multerFilename tFile f :: st.uploads)
      (localPathOf (multerFilename tFile f)) = st.uploads := by
    unfold unlinkPath
    rw [List.filter_cons_of_neg (by simp)]
    apply List.filter_eq_self.2
    intro n hn
    simp only [Bool.not_eq_true', beq_eq_false_iff_ne, ne_eq]
    intro heq
    exact hfresh (localPathOf_inj heq ▸ hn)
  constructor
  · simp only [postUpload1, hgate, uploadHandler1, hex, hunlink, if_true]
  · simp only [postUpload2, hgate, uploadHandler2]

/-- Witness for C3's amended theorem: a failed remote upload through the
first variant leaves the concrete state exactly as it was. -/
theorem upload_failure_cleanup_witness :
    postUpload1 exState (some ⟨"dog.png", "image/png", 10⟩) (.err "cloud down")
        200 201 "T" none none = (.handlerError "cloud down", exState) :=
  (upload_failure_cleanup exState ⟨"dog.png", "image/png", 10⟩ "cloud down" 200 201 "T"
    none none (by decide) (by decide) (by decide)).1

/-- C3 counterexample: through the second upload variant, a failed remote
upload answers 500 and creates no record, but the just-written local blob
1-a.png is left in the Local Blob Store, which therefore differs from its
(empty) pre-request state. -/
theorem upload2_leaves_blob_cex :
    (postUpload2 { db := [], uploads := [] } (some ⟨"a.png", "image/png", 10⟩)
        (.err "cloud down") 1 1 "T").2.uploads = ["1-a.png"] ∧
    (postUpload2 { db := [], uploads := [] } (some ⟨"a.png", "image/png", 10⟩)
        (.err "cloud down") 1 1 "T").2.db = [] ∧
    uploadStatusCode (postUpload2 { db := [], uploads := [] }
        (some ⟨"a.png", "image/png", 10⟩) (.err "cloud down") 1 1 "T").1 = 500 ∧
    (["1-a.png"] : List String) ≠ [] :=
  ⟨rfl, rfl, rfl, by decide⟩

/-- C4 (amended): a successful restore is an update-in-place.  The returned
and persisted record keeps the found record's id, filename, localPath,
originalName, uploadedAt and backup fields; cloudinaryUrl and
cloudinaryPublicId take the fresh upload result, restoredAt is set, AND the
stored status field is set to available (a fourth modified field beyond the
remote fields and restoredAt); the store afterwards is the old store with
that one slot overwritten — same length, no new record — and the Local Blob
Store is untouched. -/
theorem updateImageRecord_of_found (st : BackendState) (newRec : ImageRecord)
    (i : Nat)
    (hidx : st.db.findIdx? (fun x => idToString x.id == idToString newRec.id) =
      some i) :
    updateImageRecord st newRec = { st with db := st.db.set i newRec } := by
  unfold updateImageRecord
  rw [hidx]

theorem restore_updates_in_place (st : BackendState) (id : JsonId)
    (result : CloudUploadResult) (nowIso : String) (img : ImageRecord)
    (hfind : findImageById st.db id = some img)
    (hlocal : existsSyncPath st.uploads img.localPath = true) :
    ∃ img', (postRestore st id (.ok result) nowIso).1 = .ok img' ∧
      ((postRestore st id (.ok result) nowIso).2).db.length = st.db.length ∧
      ((postRestore st id (.ok result) nowIso).2).uploads = st.uploads ∧
      img'.id = img.id ∧ img'.filename = img.filename ∧
      img'.localPath = img.localPath ∧ img'.originalName = img.originalName ∧
      img'.uploadedAt = img.uploadedAt ∧ img'.backupKey = img.backupKey ∧
      img'.backupData = img.backupData ∧
      img'.cloudinaryUrl = result.secure_url ∧
      img'.cloudinaryPublicId = result.public_id ∧
      img'.restoredAt = some nowIso ∧ img'.status = some "available" ∧
      ∃ i, ∃ hi : i < st.db.length, st.db.get ⟨i, hi⟩ = img ∧
        ((postRestore st id (.ok result) nowIso).2).db = st.db.set i img' := by
  have hfind' : st.db.find? (fun x => idToString x.id == idToString id) = some img :=
    hfind
  obtain ⟨i, hidx, hi, hget⟩ :=
    find?_imp_findIdx? (fun x => idToString x.id == idToString id) st.db img hfind' 0
  rw [Nat.zero_add] at hidx
  have hid : idToString img.id = idToString id :=
    eq_of_beq (@List.find?_some _ (fun x => idToString x.id == idToString id) img
      st.db hfind')
  have hidx2 : st.db.findIdx? (fun x => idToString x.id == idToString img.id) =
      some i := by
    have hpred : (fun x : ImageRecord => idToString x.id == idToString img.id) =
        (fun x : ImageRecord => idToString x.id == idToString id) := by
      funext x
      rw [hid]
    rw [hpred]
    exact hidx
  refine ⟨{ img with
              cloudinaryUrl := result.secure_url
              cloudinaryPublicId := result.public_id
              restoredAt := some nowIso
              status := some "available" }, ?_⟩
  have hupd := updateImageRecord_of_found st
    { img with
        cloudinaryUrl := result.secure_url
        cloudinaryPublicId := result.public_id
        restoredAt := some nowIso
        status := some "available" } i hidx2
  have hpost : postRestore st id (.ok result) nowIso =
      (.ok { img with
               cloudinaryUrl := result.secure_url
               cloudinaryPublicId := result.public_id
               restoredAt := some nowIso
               status := some "available" },
       updateImageRecord st
         { img with
             cloudinaryUrl := result.secure_url
             cloudinaryPublicId := result.public_id
             restoredAt := some nowIso
             status := some "available" }) := by
    simp only [postRestore, hfind, hlocal, Bool.not_true, Bool.false_eq_true,
      if_false]
  refine ⟨by rw [hpost], ?_, ?_, rfl, rfl, rfl, rfl, rfl, rfl, rfl, rfl, rfl, rfl,
    rfl, i, hi, hget, ?_⟩
  · rw [hpost, hupd]
    exact List.length_set st.db i _
  · rw [hpost, hupd]
  · rw [hpost, hupd]

/-- Witness for C4's amended theorem at the concrete store: after a
successful restore the store still holds exactly one record. -/
theorem restore_updates_in_place_witness :
    ((postRestore exState (.str "100")
        (.ok ⟨"https://res.example/y.png", "cloudapp/y"⟩)
        "2024-06-01T00:00:00Z").2).db.length = exState.db.length := by
  obtain ⟨img', h⟩ := restore_updates_in_place exState (.str "100")
    ⟨"https://res.example/y.png", "cloudapp/y"⟩ "2024-06-01T00:00:00Z" exRecord
    (by decide) (by decide)
  exact h.2.1

/-- C4 counterexample: the stored record's status field is absent before the
restore and set to available by it — a modification of a field other than
remoteAssetId, remoteUrl and restoredAt, refuting the claim that only those
three change. -/
theorem restore_changes_status_cex :
    exRecord.status = none ∧
    (((postRestore exState (.str "100")
        (.ok ⟨"https://res.example/y.png", "cloudapp/y"⟩)
        "2024-06-01T00:00:00Z").2).db.map (fun r => r.status)) =
      [some "available"] :=
  ⟨rfl, rfl⟩

/-- C6 (amended): the id of every record the Upload Workflow creates is
exactly the decimal string of the Date.now() reading taken in the handler,
so two created records carry equal ids precisely when those decimal strings
coincide — uploads in different milliseconds get different ids, but two
uploads inside the same millisecond share one id, and nothing else enforces
uniqueness across the store's lifetime. -/
theorem upload_id_from_timestamp (st st' : BackendState) (f f' : UploadedFile)
    (res res' : CloudUploadResult) (tF tI tF' tI' : Nat) (now now' : String)
    (bk bd bk' bd' : Option String) (r r' : ImageRecord)
    (h : (postUpload1 st (some f) (.ok res) tF tI now bk bd).1 = .created r)
    (h' : (postUpload1 st' (some f') (.ok res') tF' tI' now' bk' bd').1 =
      .created r') :
    r.id = .str (toString tI) ∧ r'.id = .str (toString tI') ∧
    (r.id = r'.id ↔ toString tI = toString tI') := by
  have key : ∀ (st0 : BackendState) (f0 : UploadedFile) (res0 : CloudUploadResult)
      (tF0 tI0 : Nat) (now0 : String) (bk0 bd0 : Option String) (r0 : ImageRecord),
      (postUpload1 st0 (some f0) (.ok res0) tF0 tI0 now0 bk0 bd0).1 = .created r0 →
      r0.id = .str (toString tI0) := by
    intro st0 f0 res0 tF0 tI0 now0 bk0 bd0 r0 h0
    by_cases h1 : strStartsWith f0.mimetype "image/" = true
    · by_cases h2 : maxFileSize < f0.size
      · simp [postUpload1, multerGate_oversize st0 f0 tF0 h1 h2] at h0
      · have hg := multerGate_pass st0 f0 tF0 h1 (Nat.not_lt.1 h2)
        simp only [postUpload1, hg, uploadHandler1, UploadResp.created.injEq] at h0
        rw [← h0]
    · rw [Bool.not_eq_true] at h1
      simp [postUpload1, multerGate_nonimage st0 f0 tF0 h1] at h0
  have ha := key st f res tF tI now bk bd r h
  have hb := key st' f' res' tF' tI' now' bk' bd' r' h'
  refine ⟨ha, hb, ?_⟩
  rw [ha, hb]
  constructor
  · intro hh
    injection hh
  · intro hh
    rw [hh]

/-- Witness for C6's amended theorem: the two sample uploads at millisecond
7 both receive the id "7". -/
theorem upload_id_from_timestamp_witness :
    exUploadedA.id = .str (toString 7) ∧ exUploadedB.id = .str (toString 7) ∧
    (exUploadedA.id = exUploadedB.id ↔ toString 7 = toString 7) :=
  upload_id_from_timestamp { db := [], uploads := [] } { db := [], uploads := [] }
    ⟨"a.png", "image/png", 10⟩ ⟨"b.png", "image/png", 10⟩ ⟨"u1", "p1"⟩ ⟨"u2", "p2"⟩
    7 7 7 7 "T" "T" none none none none exUploadedA exUploadedB rfl rfl

/-- C6 counterexample: two distinct records created by two successful
uploads in the same millisecond (Date.now() = 7) both live in the store
afterwards and carry the SAME id "7" — id is not unique across the store's
lifetime. -/
theorem upload_id_collision_cex :
    exUploadedA ≠ exUploadedB ∧ exUploadedA.id = exUploadedB.id ∧
    (postUpload1 { db := [], uploads := [] } (some ⟨"a.png", "image/png", 10⟩)
        (.ok ⟨"u1", "p1"⟩) 7 7 "T" none none).1 = .created exUploadedA ∧
    (postUpload1 (postUpload1 { db := [], uploads := [] }
          (some ⟨"a.png", "image/png", 10⟩) (.ok ⟨"u1", "p1"⟩) 7 7 "T" none
          none).2
        (some ⟨"b.png", "image/png", 10⟩) (.ok ⟨"u2", "p2"⟩) 7 7 "T" none
        none).2.db = [exUploadedA, exUploadedB] :=
  ⟨by decide, rfl, rfl, rfl⟩

/-- C8 (amended): a request with no file is rejected with 400 and the state
is untouched; a non-image file is rejected by the fileFilter before any blob
write and an oversize file is rejected by the size limit (multer removing
the partial write), in both cases leaving the state untouched — no blob,
remote asset or record is created — but these two rejections surface
through the Express default error handler as 500, not as a 400-class
status. -/
theorem upload_validation_rejections (st : BackendState) (f : UploadedFile)
    (up : UploadOutcome) (tF tI : Nat) (now : String) (bk bd : Option String) :
    postUpload1 st none up tF tI now bk bd = (.noFile, st) ∧
    uploadStatusCode (postUpload1 st none up tF tI now bk bd).1 = 400 ∧
    (strStartsWith f.mimetype "image/" = false →
      postUpload1 st (some f) up tF tI now bk bd =
        (.middlewareError "Only image files are allowed", st)) ∧
    (strStartsWith f.mimetype "image/" = true → maxFileSize < f.size →
      postUpload1 st (some f) up tF tI now bk bd =
        (.middlewareError "File too large", st)) ∧
    uploadStatusCode (.middlewareError "Only image files are allowed") = 500 ∧
    uploadStatusCode (.middlewareError "File too large") = 500 := by
  refine ⟨rfl, rfl, ?_, ?_, rfl, rfl⟩
  · intro h
    simp only [postUpload1, multerGate_nonimage st f tF h]
  · intro h1 h2
    simp only [postUpload1, multerGate_oversize st f tF h1 h2]

/-- Witness for C8's amended theorem: a pdf upload is rejected with the
fileFilter error and the concrete state is unchanged. -/
theorem upload_validation_rejections_witness :
    postUpload1 exState (some ⟨"a.pdf", "application/pdf", 10⟩) (.err "x") 1 1 "T"
        none none = (.middlewareError "Only image files are allowed", exState) :=
  (upload_validation_rejections exState ⟨"a.pdf", "application/pdf", 10⟩ (.err "x")
    1 1 "T" none none).2.2.1 (by decide)

/-- C8 counterexample: the concrete non-image upload request is answered
with status 500 — not the 400-class validation failure the claim asserts
for wrong-type files. -/
theorem upload_nonimage_not_400_cex :
    uploadStatusCode (postUpload1 { db := [], uploads := [] }
        (some ⟨"a.pdf", "application/pdf", 10⟩) (.err "never reached") 1 1 "T"
        none none).1 = 500 ∧
    (500 : Nat) ≠ 400 :=
  ⟨rfl, by decide⟩

end CloudApp
